import Mathlib

/-!
Verification of the ACIP identity-verification pipeline
(`backend/app/services/agents/external_verifier.py`,
`backend/app/services/agents/compliance_officer.py`,
`backend/app/services/agents/document_inspector.py`,
`backend/app/services/workflow.py`, `backend/app/api/actions.py`).

The Python code is shallowly embedded: dictionaries become structures with
`Option` fields (`none` models a missing key or a `None` value), floats
become `ℚ`, and wall-clock timestamps, logging calls and `time.sleep`
simulation delays are elided (they are I/O and carry no decision content).
-/

/-! ## String helpers (models of the Python `str` operations used) -/

/-- Model of Python `str.upper` (ASCII, as used on the ASCII field values). -/
def upperStr (s : String) : String := ⟨s.toList.map Char.toUpper⟩

/-- Model of Python `str.lower`. -/
def lowerStr (s : String) : String := ⟨s.toList.map Char.toLower⟩

def trimCharsLeft (s : List Char) : List Char := s.dropWhile Char.isWhitespace

/-- Model of Python `str.strip` (drop whitespace at both ends). -/
def trimStr (s : String) : String :=
  ⟨((trimCharsLeft s.toList).reverse.dropWhile Char.isWhitespace).reverse⟩

/-- Python `str(x).upper().strip()` as applied to field values. -/
def upperTrim (s : String) : String := trimStr (upperStr s)

def startsWithList : List Char → List Char → Bool
  | [], _ => true
  | _ :: _, [] => false
  | p :: ps, c :: cs => p = c && startsWithList ps cs

def containsSubList (pat : List Char) : List Char → Bool
  | [] => startsWithList pat []
  | c :: cs => startsWithList pat (c :: cs) || containsSubList pat cs

/-- Model of the Python substring test `pat in s`. -/
def containsSub (s pat : String) : Bool := containsSubList pat.toList s.toList

/-- Model of Python `", ".join`-style joining. -/
def joinWith (sep : String) : List String → String
  | [] => ""
  | [s] => s
  | s :: rest => s ++ sep ++ joinWith sep rest

/-- Python truthiness of an optional string (`None` and `""` are falsy). -/
def truthyOpt (o : Option String) : Bool :=
  match o with
  | none => false
  | some s => s ≠ ""

/-- Python `a or b` on optional string values (left value unless falsy). -/
def orFalsy (a b : Option String) : Option String :=
  match a with
  | none => b
  | some s => if s = "" then b else some s

/-- Python `d.get(k) == v` where the left side is `None` or a string. -/
def optEqStr (o : Option String) (v : String) : Bool :=
  match o with
  | none => false
  | some s => s = v

/-! ## Levenshtein distance (`ExternalVerifierAgent._levenshtein_distance`)

The Python method computes the classic dynamic-programming rows:
`previous_row = range(len(s2)+1)`, then for each character of `s1` a
`current_row` starting with `i+1` whose entries are
`min(insertions, deletions, substitutions)`.
-/

/-- Inner loop of the DP: walks `s2` with `previous_row` (`pj :: pj1 :: ps`
gives `previous_row[j]` and `previous_row[j+1]`) and the last entry `cur` of
the current row. -/
def rowGo (c1 : Char) : List Char → List Nat → Nat → List Nat
  | c2 :: cs, pj :: pj1 :: ps, cur =>
      let ins := pj1 + 1
      let del := cur + 1
      let sub := pj + (if c1 = c2 then 0 else 1)
      let m := min ins (min del sub)
      m :: rowGo c1 cs (pj1 :: ps) m
  | _, _, _ => []

/-- Outer loop of the DP: `i` is the index of the current character of `s1`,
`prev` the previous row. -/
def levFold (s2 : List Char) : List Char → Nat → List Nat → List Nat
  | [], _, prev => prev
  | c1 :: rest, i, prev => levFold s2 rest (i + 1) ((i + 1) :: rowGo c1 s2 prev (i + 1))

/-- `_levenshtein_distance` after the initial swap (so `len s1 ≥ len s2`). -/
def levDistOrdered (s1 s2 : List Char) : Nat :=
  if s2.length = 0 then s1.length
  else (levFold s2 s1 0 (List.range (s2.length + 1))).getLastD 0

/-- `ExternalVerifierAgent._levenshtein_distance`: swaps the arguments when
`len(s1) < len(s2)`, then runs the DP. -/
def levDist (s1 s2 : List Char) : Nat :=
  if s1.length < s2.length then levDistOrdered s2 s1 else levDistOrdered s1 s2

/-! Reference recursive Levenshtein distance, used to prove that the DP is
symmetric. `levRec` is the textbook head recursion; `levSnoc` reverses the
arguments so that it unfolds along the suffix, matching the DP direction. -/

def levRec : List Char → List Char → Nat
  | [], ys => ys.length
  | x :: xs, [] => (x :: xs).length
  | x :: xs, y :: ys =>
      min (levRec xs (y :: ys) + 1)
        (min (levRec (x :: xs) ys + 1) (levRec xs ys + (if x = y then 0 else 1)))

def levSnoc (xs ys : List Char) : Nat := levRec xs.reverse ys.reverse

/-- The row the DP is expected to hold after consuming `xs` of `s1`, having
scanned the prefix `p` of `s2` with suffix `t` remaining: the entries are the
distances between `xs` and `p`, `p ++ [t₀]`, `p ++ [t₀, t₁]`, … -/
def rowFrom (xs : List Char) : List Char → List Char → List Nat
  | p, [] => [levSnoc xs p]
  | p, c2 :: cs => levSnoc xs p :: rowFrom xs (p ++ [c2]) cs

/-! ## Near-match equivalence (`ExternalVerifierAgent._is_near_match`) -/

def removeChar (c : Char) (s : List Char) : List Char := s.filter (fun a => a ≠ c)

/-- Python `value.replace("-", "").replace(" ", "").replace(".", "")`. -/
def stripSeparators (value : String) : String :=
  ⟨removeChar '.' (removeChar ' ' (removeChar '-' value.toList))⟩

/-- The `common_names` dictionary of known nickname equivalences. -/
def commonNamesGet (v : String) : Option String :=
  if v = "JON" then some "JOHN" else if v = "JOHN" then some "JON"
  else if v = "BOB" then some "ROBERT" else if v = "ROBERT" then some "BOB"
  else if v = "BILL" then some "WILLIAM" else if v = "WILLIAM" then some "BILL"
  else if v = "MIKE" then some "MICHAEL" else if v = "MICHAEL" then some "MIKE"
  else if v = "JIM" then some "JAMES" else if v = "JAMES" then some "JIM"
  else none

/-- `ExternalVerifierAgent._is_near_match`: strip separators (the Python
locals `v1`, `v2` are inlined), test equality, the nickname table, and (only
when both stripped values are longer than 3 characters) Levenshtein distance
at most 2. -/
def isNearMatch (value1 value2 : String) : Bool :=
  if stripSeparators value1 = stripSeparators value2 then true
  else if optEqStr (commonNamesGet (stripSeparators value1)) (stripSeparators value2)
      || optEqStr (commonNamesGet (stripSeparators value2)) (stripSeparators value1) then true
  else if (stripSeparators value1).length > 3 && (stripSeparators value2).length > 3 then
    if levDist (stripSeparators value1).toList (stripSeparators value2).toList ≤ 2 then true
    else false
  else false

/-- The full field-value comparison as performed in
`_verify_against_database` (values are first uppercased and stripped at
lines 143/151, then compared with `==` or `_is_near_match` at line 163). -/
def valuesMatch (a b : String) : Bool :=
  (upperTrim a = upperTrim b) || isNearMatch (upperTrim a) (upperTrim b)

/-! ## Rational constants

The numeric literals of the source (quality thresholds, match and confidence
scores) are embedded as already-reduced `ℚ` values so that concrete runs of
the model reduce inside the kernel; the bridge lemmas below identify each
constant with its decimal literal. -/

/-- The literal `0.5` (inspection quality threshold). -/
def c05 : ℚ := ⟨1, 2, by decide, by decide⟩

/-- The literal `0.7` (low-quality threshold; also the confidence `0.70`). -/
def c07 : ℚ := ⟨7, 10, by decide, by decide⟩

/-- The literal `0.9` (high-quality threshold). -/
def c09 : ℚ := ⟨9, 10, by decide, by decide⟩

/-- The literal `0.92` (the constant quality score of `_assess_quality`). -/
def c092 : ℚ := ⟨23, 25, by decide, by decide⟩

/-- The literal `0.98` (DVS match score). -/
def c098 : ℚ := ⟨49, 50, by decide, by decide⟩

/-- The literal `0.85` (escalation confidence). -/
def c085 : ℚ := ⟨17, 20, by decide, by decide⟩

/-- The literal `0.99` (sanctions-rejection confidence). -/
def c099 : ℚ := ⟨99, 100, by decide, by decide⟩

/-! ## Database match (`ExternalVerifierAgent._verify_against_database`)

The extracted-data and customer-record dictionaries are embedded as
structures whose `Option String` fields model a missing key or a `None`
value (both behave identically under the `.get` accesses the code performs
on them). -/

structure ExtractedData where
  document_type : Option String := none
  first_name : Option String := none
  last_name : Option String := none
  dob : Option String := none
  document_number : Option String := none
  id_number : Option String := none
  nationality : Option String := none
deriving DecidableEq

structure CustomerRecord where
  customer_id : Option String := none
  first_name : Option String := none
  last_name : Option String := none
  dob : Option String := none
  id_number : Option String := none
deriving DecidableEq

structure Discrepancy where
  field : String
  document_value : String
  database_value : String
deriving DecidableEq

structure DbMatchResult where
  status : String
  match_percentage : ℚ
  matched_fields : List String
  discrepancies : List Discrepancy
  customer_id : Option String
deriving DecidableEq

/-- The `field_mappings` list: extracted-side key, database-side key,
display name. -/
def fieldMappings : List (String × String × String) :=
  [("first_name", "first_name", "First Name"),
   ("last_name", "last_name", "Last Name"),
   ("dob", "dob", "Date of Birth"),
   ("document_number", "id_number", "ID Number"),
   ("id_number", "id_number", "ID Number")]

/-- `extracted.get(ext_field)` on the extracted-data dictionary. -/
def getExtField (e : ExtractedData) (k : String) : Option String :=
  if k = "first_name" then e.first_name
  else if k = "last_name" then e.last_name
  else if k = "dob" then e.dob
  else if k = "document_number" then e.document_number
  else if k = "id_number" then e.id_number
  else if k = "document_type" then e.document_type
  else if k = "nationality" then e.nationality
  else none

/-- `db_data.get(db_field)` on the customer-record dictionary. -/
def getDbField (d : CustomerRecord) (k : String) : Option String :=
  if k = "first_name" then d.first_name
  else if k = "last_name" then d.last_name
  else if k = "dob" then d.dob
  else if k = "id_number" then d.id_number
  else if k = "customer_id" then d.customer_id
  else none

/-- Raw extracted value for a mapping entry; for `document_number` the code
falls back to `id_number` (Python `or`). -/
def extractRawValue (e : ExtractedData) (ext_field : String) : Option String :=
  if ext_field = "document_number" then orFalsy (getExtField e "document_number") (getExtField e "id_number")
  else getExtField e ext_field

/-- Normalization of the document-side value: `None`, `""`, `"null"` and
`"None"` are treated as missing, otherwise uppercase + strip, and a value
that becomes `"NONE"` is also treated as missing. -/
def normExtValue (raw : Option String) : Option String :=
  match raw with
  | none => none
  | some s =>
    if s = "" ∨ s = "null" ∨ s = "None" then none
    else if upperTrim s = "NONE" then none
    else some (upperTrim s)

/-- Normalization of the database-side value: `None`, `""`, `"null"` and
`"None"` are treated as missing, otherwise uppercase + strip. -/
def normDbValue (raw : Option String) : Option String :=
  match raw with
  | none => none
  | some s =>
    if s = "" ∨ s = "null" ∨ s = "None" then none
    else some (upperTrim s)

/-- One iteration of the `for ext_field, db_field, display_name` loop,
threading the `(discrepancies, matched_fields)` accumulator. -/
def dbFieldStep (e : ExtractedData) (d : CustomerRecord)
    (acc : List Discrepancy × List String) (m : String × String × String) :
    List Discrepancy × List String :=
  match normExtValue (extractRawValue e m.1), normDbValue (getDbField d m.2.1) with
  | none, _ => acc
  | some _, none => acc
  | some ev, some dv =>
    if ev = dv ∨ isNearMatch ev dv = true then (acc.1, acc.2 ++ [m.2.2])
    else (acc.1 ++ [⟨m.2.2, ev, dv⟩], acc.2)

/-- `ExternalVerifierAgent._verify_against_database`. -/
def verifyAgainstDatabase (e : ExtractedData) (d : CustomerRecord) : DbMatchResult :=
  { status := if (fieldMappings.foldl (dbFieldStep e d) ([], [])).1 = [] then "VERIFIED" else "DISCREPANCY"
    match_percentage :=
      ((fieldMappings.foldl (dbFieldStep e d) ([], [])).2.length : ℚ) / (max fieldMappings.length 1 : ℚ)
    matched_fields := (fieldMappings.foldl (dbFieldStep e d) ([], [])).2
    discrepancies := (fieldMappings.foldl (dbFieldStep e d) ([], [])).1
    customer_id := d.customer_id }

/-! ## DVS, PEP and sanctions checks (`_check_dvs`, `_check_pep`,
`_check_sanctions`); the `checked_at` timestamps are elided -/

structure DvsResult where
  verified : Bool
  match_score : ℚ
  document_valid : Option Bool := none
  document_expired : Option Bool := none
  name_match : Option Bool := none
  dob_match : Option Bool := none
  error : Option String := none
deriving DecidableEq

/-- `ExternalVerifierAgent._check_dvs`. -/
def checkDvs (data : ExtractedData) : DvsResult :=
  if truthyOpt (orFalsy data.document_number data.id_number) then
    { verified := true, match_score := c098, document_valid := some true,
      document_expired := some false, name_match := some true, dob_match := some true }
  else
    { verified := false, match_score := 0, error := some "No document number provided" }

structure PepResult where
  checked : Bool
  is_pep : Bool
  match_type : Option String
  pep_category : Option String
deriving DecidableEq

/-- `ExternalVerifierAgent._check_pep`. -/
def checkPep (name : String) : PepResult :=
  { checked := true
    is_pep := containsSub (upperStr name) "POLITICIAN" || containsSub (upperStr name) "MINISTER"
    match_type :=
      if containsSub (upperStr name) "POLITICIAN" || containsSub (upperStr name) "MINISTER"
      then some "exact" else none
    pep_category :=
      if containsSub (upperStr name) "POLITICIAN" || containsSub (upperStr name) "MINISTER"
      then some "Government Official" else none }

structure SanctionsResult where
  checked : Bool
  is_sanctioned : Bool
deriving DecidableEq

/-- `ExternalVerifierAgent._check_sanctions`. -/
def checkSanctions (name : String) : SanctionsResult :=
  { checked := true, is_sanctioned := containsSub (upperStr name) "SANCTIONED" }

/-! ## Overall verification result (`verify`, `_determine_overall_status`) -/

structure VerificationResult where
  success : Bool := true
  dvs_result : Option DvsResult := none
  pep_result : Option PepResult := none
  sanctions_result : Option SanctionsResult := none
  database_match : Option DbMatchResult := none
  overall_status : Option String := none
  risk_indicators : List String := []
  requires_human_review : Bool := false
deriving DecidableEq

/-- Python truthiness of
`results["sanctions_result"] and results["sanctions_result"].get("is_sanctioned")`. -/
def sanctionsHitB (r : VerificationResult) : Bool :=
  match r.sanctions_result with
  | some s => s.is_sanctioned
  | none => false

/-- Python truthiness of `results["pep_result"] and ....get("is_pep")`. -/
def pepHitB (r : VerificationResult) : Bool :=
  match r.pep_result with
  | some p => p.is_pep
  | none => false

/-- Python truthiness of `results["dvs_result"] and not ....get("verified")`. -/
def dvsFailedB (r : VerificationResult) : Bool :=
  match r.dvs_result with
  | some d => !d.verified
  | none => false

/-- Python truthiness of `results["database_match"] and ....get("discrepancies")`. -/
def dbDiscrepancyB (r : VerificationResult) : Bool :=
  match r.database_match with
  | some m => !m.discrepancies.isEmpty
  | none => false

/-- Number of database-match discrepancies (0 when no database match ran). -/
def dbDiscrepancyCount (r : VerificationResult) : Nat :=
  match r.database_match with
  | some m => m.discrepancies.length
  | none => 0

/-- `ExternalVerifierAgent._determine_overall_status`: the `if/elif` chain
that sets `overall_status`, `requires_human_review` and `risk_indicators`
(the local `risk_indicators` list receives at most one append before being
stored). -/
def determineOverallStatus (r : VerificationResult) : VerificationResult :=
  if sanctionsHitB r then
    { r with overall_status := some "FLAGGED", requires_human_review := true,
             risk_indicators := ["SANCTIONS_MATCH"] }
  else if pepHitB r then
    { r with overall_status := some "FLAGGED", requires_human_review := true,
             risk_indicators := ["PEP_MATCH"] }
  else if dvsFailedB r then
    { r with overall_status := some "NO_MATCH", requires_human_review := true,
             risk_indicators := ["DVS_FAILED"] }
  else if dbDiscrepancyB r then
    if dbDiscrepancyCount r > 2 then
      { r with overall_status := some "NO_MATCH", requires_human_review := true,
               risk_indicators := ["DATABASE_DISCREPANCY"] }
    else
      { r with overall_status := some "PARTIAL_MATCH", requires_human_review := true,
               risk_indicators := ["DATABASE_DISCREPANCY"] }
  else
    { r with overall_status := some "VERIFIED", requires_human_review := false,
             risk_indicators := [] }

/-- The `name` local of `verify`:
`f"{extracted_data.get('first_name', '')} {extracted_data.get('last_name', '')}".strip()`
(a missing key and a `None` value both render as the empty string here). -/
def verifyName (e : ExtractedData) : String :=
  trimStr (e.first_name.getD "" ++ " " ++ e.last_name.getD "")

/-- `ExternalVerifierAgent.verify`: runs the sub-checks (the database match
only when customer data was supplied) and derives the overall status. -/
def verify (e : ExtractedData) (customer_db_data : Option CustomerRecord) : VerificationResult :=
  determineOverallStatus
    { success := true
      dvs_result := some (checkDvs e)
      database_match := customer_db_data.map (verifyAgainstDatabase e)
      pep_result := some (checkPep (verifyName e))
      sanctions_result := some (checkSanctions (verifyName e) )
      overall_status := some "PENDING"
      risk_indicators := []
      requires_human_review := false }

/-! ## Compliance officer (`compliance_officer.py`)

`ComplianceOfficerAgent.assess` gathers risk and mitigating factors from the
inspection and verification results, classifies risk, and decides. The
timestamped audit entries it also assembles are elided (they replay the same
fields). The `risk_rules` configuration dictionary is embedded as constants. -/

def sanctionsAutoRejectRule : Bool := true

def pepRequiresEddRule : Bool := true

def autoApproveVerifiedLowRiskRule : Bool := false

/-- Inspection-step result dictionary as read by the workflow and the
compliance officer (`DocumentInspectorAgent.inspect` return value). -/
structure InspectionResult where
  success : Bool
  document_type : Option String := none
  quality_score : Option ℚ := none
  extracted_data : Option ExtractedData := none
  issues : List String := []
  requires_resubmission : Bool := false
  resubmission_reason : Option String := none
deriving DecidableEq

/-- `round (q * 100)` computed on the numerator and denominator
(`⌊(100 q) + 1/2⌋ = (200 num + den) fdiv (2 den)`). -/
def pctRound (q : ℚ) : Int := Int.fdiv (200 * q.num + q.den) (2 * q.den)

/-- Python `f"({value:.0%}"`-style percent rendering (the exact rounding mode
never influences any decision: every score rendered is a whole percentage,
and the rendered digits only appear inside factor strings that contain no
critical keyword). -/
def pctStr (q : ℚ) : String := toString (pctRound q) ++ "%"

/-- `_assess_document_evidence`: risk factors (left) and mitigating factors
(right), appended in source order. -/
def assessDocumentEvidence (ir : InspectionResult) : List String × List String :=
  if !ir.success then (["Document extraction failed"], [])
  else
    ((if (ir.quality_score.getD 0) ≥ c09 then []
      else if (ir.quality_score.getD 0) < c07 then
        ["Low quality document (" ++ pctStr (ir.quality_score.getD 0) ++ ")"]
      else [])
      ++ ir.issues.map (fun issue => "Validation issue: " ++ issue),
     ["Document successfully extracted"]
      ++ (if (ir.quality_score.getD 0) ≥ c09 then
            ["High quality document (" ++ pctStr (ir.quality_score.getD 0) ++ ")"]
          else [])
      ++ (if ir.issues = [] then ["All document fields validated"] else []))

/-- Database-match status test `db_match.get("status") == "VERIFIED"`. -/
def dbStatusVerifiedB (r : VerificationResult) : Bool :=
  match r.database_match with
  | some m => m.status = "VERIFIED"
  | none => false

/-- `_assess_external_evidence`: risk factors (left) and mitigating factors
(right), appended in source order (DVS, database match, PEP, sanctions). -/
def assessExternalEvidence (vr : VerificationResult) : List String × List String :=
  ((if dvsFailedB vr || vr.dvs_result.isNone then ["DVS verification failed"] else [])
    ++ (if dbStatusVerifiedB vr then []
        else match vr.database_match with
          | some m => m.discrepancies.map (fun disc => "Discrepancy in " ++ disc.field)
          | none => [])
    ++ (if pepHitB vr then
          ["PEP status: " ++ ((vr.pep_result.bind PepResult.pep_category).getD "Unknown")]
        else [])
    ++ (if sanctionsHitB vr then ["SANCTIONS HIT"] else []),
   (if dvsFailedB vr || vr.dvs_result.isNone then []
    else ["DVS verified (Match: "
            ++ pctStr ((vr.dvs_result.map DvsResult.match_score).getD 0) ++ ")"])
    ++ (if dbStatusVerifiedB vr then ["Customer database match confirmed"] else [])
    ++ (if pepHitB vr then [] else ["No PEP associations found"])
    ++ (if sanctionsHitB vr then [] else ["Cleared all sanctions lists"]))

/-- The `critical_keywords` list of `_calculate_risk_level`. -/
def criticalKeywords : List String := ["SANCTIONS", "PEP status", "DVS verification failed"]

/-- A risk factor containing a critical keyword (the inner `for keyword`
loop). -/
def isCriticalFactor (factor : String) : Bool :=
  criticalKeywords.any (fun keyword => containsSub factor keyword)

/-- `ComplianceOfficerAgent._calculate_risk_level`. -/
def calculateRiskLevel (risk_factors mitigating_factors : List String) : String :=
  if risk_factors.any isCriticalFactor then "HIGH"
  else if (risk_factors.length : Int) * 2 - mitigating_factors.length ≤ -2 then "LOW"
  else if (risk_factors.length : Int) * 2 - mitigating_factors.length ≤ 2 then "MEDIUM"
  else "HIGH"

structure DecisionResult where
  decision : String
  confidence_score : ℚ
  reasoning : String
  next_steps : String
  restrictions : List String
deriving DecidableEq

/-- `f"{verification_status}"` where the status may be `None`. -/
def showOptStatus (o : Option String) : String :=
  match o with
  | some s => s
  | none => "None"

/-- `ComplianceOfficerAgent._make_decision`. -/
def makeDecision (risk_level : String) (risk_factors : List String)
    (vr : VerificationResult) : DecisionResult :=
  if sanctionsHitB vr && sanctionsAutoRejectRule then
    { decision := "REJECT"
      confidence_score := c099
      reasoning := "Automatic rejection due to sanctions list match. This is a regulatory requirement."
      next_steps := "Case flagged for Compliance review. Customer must not be onboarded."
      restrictions := ["ACCOUNT_FROZEN", "NO_TRANSACTIONS"] }
  else if pepHitB vr && pepRequiresEddRule then
    { decision := "ESCALATE"
      confidence_score := c085
      reasoning := "Customer identified as PEP ("
        ++ ((vr.pep_result.bind PepResult.pep_category).getD "Unknown")
        ++ "). Enhanced Due Diligence required per bank policy."
      next_steps := "Escalated to Senior Compliance Officer for EDD review."
      restrictions := ["LIMITED_TRANSACTIONS"] }
  else
    { decision := "ESCALATE"
      confidence_score :=
        if vr.overall_status = some "VERIFIED" ∧ risk_level = "LOW" then c085 else c07
      reasoning :=
        joinWith " "
          ((if risk_factors ≠ [] then
              ["Risk factors identified: " ++ joinWith ", " (risk_factors.take 3)]
            else [])
           ++ (if vr.overall_status ≠ some "VERIFIED" then
                 ["Verification status: " ++ showOptStatus vr.overall_status]
               else [])
           ++ (if risk_level = "LOW" ∧ vr.overall_status = some "VERIFIED" then
                 ["Low risk profile - ready for human review"]
               else ["Risk level: " ++ risk_level]))
      next_steps := "Escalated to Operations team for manual review and approval."
      restrictions := if risk_level = "MEDIUM" ∨ risk_level = "HIGH" then ["LIMITED_TRANSACTIONS"] else [] }

structure AssessResult where
  decision : String
  risk_level : String
  confidence_score : ℚ
  reasoning : String
  restrictions : List String
  next_steps : String
  risk_factors : List String
  mitigating_factors : List String
deriving DecidableEq

/-- The combined `risk_factors` and `mitigating_factors` lists accumulated
by `assess` (document evidence first, then external evidence, in source
append order). -/
def assessFactors (ir : InspectionResult) (vr : VerificationResult) :
    List String × List String :=
  ((assessDocumentEvidence ir).1 ++ (assessExternalEvidence vr).1,
   (assessDocumentEvidence ir).2 ++ (assessExternalEvidence vr).2)

/-- The `risk_level` local of `assess`. -/
def assessRiskLevel (ir : InspectionResult) (vr : VerificationResult) : String :=
  calculateRiskLevel (assessFactors ir vr).1 (assessFactors ir vr).2

/-- `ComplianceOfficerAgent.assess` (its timestamped audit-trail entries are
elided; they replay `decision`, `risk_level`, the factor lists and the
confidence score recorded here). -/
def assess (ir : InspectionResult) (vr : VerificationResult) : AssessResult :=
  { decision := (makeDecision (assessRiskLevel ir vr) (assessFactors ir vr).1 vr).decision
    risk_level := assessRiskLevel ir vr
    confidence_score := (makeDecision (assessRiskLevel ir vr) (assessFactors ir vr).1 vr).confidence_score
    reasoning := (makeDecision (assessRiskLevel ir vr) (assessFactors ir vr).1 vr).reasoning
    restrictions := (makeDecision (assessRiskLevel ir vr) (assessFactors ir vr).1 vr).restrictions
    next_steps := (makeDecision (assessRiskLevel ir vr) (assessFactors ir vr).1 vr).next_steps
    risk_factors := (assessFactors ir vr).1
    mitigating_factors := (assessFactors ir vr).2 }

/-! ## Document inspector (`document_inspector.py`)

`_assess_quality` always returns the constant score `0.92`; `inspect` is
embedded with the score as an explicit parameter (and `startCase` below is
parametrized the same way) so that the quality-threshold branch can be
examined, and with the outcome of the vision-AI `_extract_data` call as an
oracle parameter, since that call is external I/O. -/

/-- The constant `quality_score` returned by `_assess_quality`. -/
def assessQualityScore : ℚ := c092

inductive ExtractionOutcome where
  | ok (data : ExtractedData)
  | err (msg : String)
deriving DecidableEq

/-- Python falsiness of a field value (`None`, missing, or `""`). -/
def falsyOpt (o : Option String) : Bool :=
  match o with
  | none => true
  | some s => s = ""

def splitOnCharAux (c : Char) : List Char → List Char → List (List Char)
  | [], acc => [acc.reverse]
  | x :: xs, acc =>
    if x = c then acc.reverse :: splitOnCharAux c xs []
    else splitOnCharAux c xs (x :: acc)

def splitOnChar (c : Char) (s : List Char) : List (List Char) := splitOnCharAux c s []

def digitsToNat (cs : List Char) : Nat := cs.foldl (fun a c => 10 * a + (c.toNat - 48)) 0

def isLeapYear (y : Nat) : Bool := (y % 4 = 0 && y % 100 ≠ 0) || y % 400 = 0

def daysInMonth (y m : Nat) : Nat :=
  if m = 2 then (if isLeapYear y then 29 else 28)
  else if m = 4 ∨ m = 6 ∨ m = 9 ∨ m = 11 then 30
  else 31

/-- Model of `datetime.strptime(s, "%Y-%m-%d")` succeeding: three dash-joined
digit groups (year up to 4 digits and at least 1, month and day up to 2), a
valid month and a valid calendar day. -/
def validDateYmd (s : String) : Bool :=
  match splitOnChar '-' s.toList with
  | [ys, ms, ds] =>
    ys ≠ [] && ms ≠ [] && ds ≠ [] &&
    ys.all Char.isDigit && ms.all Char.isDigit && ds.all Char.isDigit &&
    ys.length ≤ 4 && ms.length ≤ 2 && ds.length ≤ 2 &&
    1 ≤ digitsToNat ys &&
    1 ≤ digitsToNat ms && digitsToNat ms ≤ 12 &&
    1 ≤ digitsToNat ds && digitsToNat ds ≤ daysInMonth (digitsToNat ys) (digitsToNat ms)
  | _ => false

/-- `DocumentInspectorAgent._validate_fields`: missing required fields, DOB
format, document/ID number presence, appended in source order. -/
def validateFields (data : ExtractedData) : List String :=
  (if falsyOpt data.first_name then ["Missing required field: first_name"] else [])
  ++ (if falsyOpt data.last_name then ["Missing required field: last_name"] else [])
  ++ (if falsyOpt data.dob then ["Missing required field: dob"] else [])
  ++ (if falsyOpt data.document_type then ["Missing required field: document_type"] else [])
  ++ (match data.dob with
      | some d => if d ≠ "" then (if validDateYmd d then [] else ["Invalid date format for DOB: " ++ d]) else []
      | none => [])
  ++ (if falsyOpt data.document_number && falsyOpt data.id_number then ["Missing document/ID number"] else [])

/-- `DocumentInspectorAgent.inspect`: the low-quality branch fails with a
resubmission request before extraction is attempted; otherwise the extraction
outcome decides success, and on success the fields are validated. -/
def inspect (quality_score : ℚ) (extraction : ExtractionOutcome) : InspectionResult :=
  if quality_score < c05 then
    { success := false
      document_type := none
      quality_score := some quality_score
      extracted_data := none
      issues := ["Image quality too low for reliable extraction"]
      requires_resubmission := true
      resubmission_reason := some "The document image is blurry or low resolution. Please upload a clearer photo." }
  else
    match extraction with
    | .err e =>
      { success := false
        document_type := none
        quality_score := some quality_score
        extracted_data := none
        issues := [e]
        requires_resubmission := false }
    | .ok data =>
      { success := true
        document_type := some (data.document_type.getD "UNKNOWN")
        quality_score := some quality_score
        extracted_data := some data
        issues := validateFields data
        requires_resubmission := false }

/-! ## Workflow graph (`workflow.py`)

The LangGraph nodes are embedded as pure state transformers on the fields of
`WorkflowState` that they read and write; timestamps, `print` calls and
activity-logger broadcasts are elided. The graph edges are unconditional
`start → document_inspection → external_verification → compliance_decision`,
then a conditional edge to `human_review` (an `interrupt()` suspension
point) or `finalize`. -/

structure AuditEntry where
  step : String
  agent : Option String := none
  details : Option String := none
  success : Option Bool := none
  document_type : Option String := none
  quality_score : Option ℚ := none
  issues : List String := []
  overall_status : Option String := none
  dvs_verified : Option Bool := none
  pep_clear : Option Bool := none
  sanctions_clear : Option Bool := none
  requires_human_review : Option Bool := none
  decision : Option String := none
  risk_level : Option String := none
  confidence_score : Option ℚ := none
  reasoning : Option String := none
  actor : Option String := none
  notes : Option String := none
  final_status : Option String := none
deriving DecidableEq

structure CaseState where
  case_id : String
  customer_name : String
  document_path : String
  customer_db_data : Option CustomerRecord := none
  status : String := "pending"
  risk_level : String := "unknown"
  inspection_result : Option InspectionResult := none
  verification_result : Option VerificationResult := none
  compliance_result : Option AssessResult := none
  extraction_result : Option ExtractedData := none
  extraction_error : Option String := none
  human_decision : Option String := none
  human_notes : Option String := none
  human_actor : Option String := none
  final_decision : Option String := none
  final_status : Option String := none
  audit_trail : List AuditEntry := []
deriving DecidableEq

/-- `start_workflow`. -/
def startNode (st : CaseState) : CaseState :=
  { st with status := "processing"
            audit_trail := st.audit_trail
              ++ [{ step := "workflow_started",
                    details := some "ACIP verification workflow initiated" }] }

/-- `document_inspection_node`. -/
def documentInspectionNode (quality_score : ℚ) (extraction : ExtractionOutcome)
    (st : CaseState) : CaseState :=
  { st with
    status := if (inspect quality_score extraction).success then "verifying" else "awaiting_human"
    inspection_result := some (inspect quality_score extraction)
    extraction_result := (inspect quality_score extraction).extracted_data
    extraction_error :=
      if (inspect quality_score extraction).success then none
      else some "Document inspection failed"
    audit_trail := st.audit_trail
      ++ [{ step := "document_inspection"
            agent := some "Document Inspector"
            success := some (inspect quality_score extraction).success
            document_type := (inspect quality_score extraction).document_type
            quality_score := (inspect quality_score extraction).quality_score
            issues := (inspect quality_score extraction).issues }] }

/-- The `{"overall_status": "SKIPPED", "reason": ...}` result stored when the
inspection failed (all other keys absent). -/
def skippedVerification : VerificationResult :=
  { overall_status := some "SKIPPED", risk_indicators := [] }

/-- `external_verification_node`: on inspection failure it stores the skipped
marker and returns with no audit entry and no status change; otherwise it
runs the external verifier. -/
def externalVerificationNode (st : CaseState) : CaseState :=
  if !((st.inspection_result.map InspectionResult.success).getD false) then
    { st with verification_result := some skippedVerification }
  else
    { st with
      status := "compliance_review"
      verification_result :=
        some (verify ((st.inspection_result.bind InspectionResult.extracted_data).getD {})
          st.customer_db_data)
      audit_trail := st.audit_trail
        ++ [{ step := "external_verification"
              agent := some "External Verifier"
              overall_status :=
                (verify ((st.inspection_result.bind InspectionResult.extracted_data).getD {})
                  st.customer_db_data).overall_status
              dvs_verified := some (((verify ((st.inspection_result.bind InspectionResult.extracted_data).getD {})
                  st.customer_db_data).dvs_result.map DvsResult.verified).getD false)
              pep_clear := some (!pepHitB (verify ((st.inspection_result.bind InspectionResult.extracted_data).getD {})
                  st.customer_db_data))
              sanctions_clear := some (!sanctionsHitB (verify ((st.inspection_result.bind InspectionResult.extracted_data).getD {})
                  st.customer_db_data))
              requires_human_review := some (verify ((st.inspection_result.bind InspectionResult.extracted_data).getD {})
                  st.customer_db_data).requires_human_review }] }

/-- The empty dictionary defaults of `compliance_decision_node`
(`state.get("inspection_result", {})`, `state.get("verification_result", {})`). -/
def emptyInspection : InspectionResult := { success := false }

def emptyVerification : VerificationResult := { }

/-- `compliance_decision_node`. -/
def complianceDecisionNode (st : CaseState) : CaseState :=
  { st with
    status :=
      if (assess (st.inspection_result.getD emptyInspection)
          (st.verification_result.getD emptyVerification)).decision = "REJECT"
      then "rejected" else "awaiting_human"
    risk_level := lowerStr (assess (st.inspection_result.getD emptyInspection)
      (st.verification_result.getD emptyVerification)).risk_level
    compliance_result := some (assess (st.inspection_result.getD emptyInspection)
      (st.verification_result.getD emptyVerification))
    final_decision := some (assess (st.inspection_result.getD emptyInspection)
      (st.verification_result.getD emptyVerification)).decision
    audit_trail := st.audit_trail
      ++ [{ step := "compliance_decision"
            agent := some "Compliance Officer"
            decision := some (assess (st.inspection_result.getD emptyInspection)
              (st.verification_result.getD emptyVerification)).decision
            risk_level := some (assess (st.inspection_result.getD emptyInspection)
              (st.verification_result.getD emptyVerification)).risk_level
            confidence_score := some (assess (st.inspection_result.getD emptyInspection)
              (st.verification_result.getD emptyVerification)).confidence_score
            reasoning := some (assess (st.inspection_result.getD emptyInspection)
              (st.verification_result.getD emptyVerification)).reasoning }] }

/-- `route_after_compliance`. -/
def routeAfterCompliance (st : CaseState) : String :=
  if st.final_decision.getD "ESCALATE" = "APPROVE" then "finalize"
  else if st.final_decision.getD "ESCALATE" = "REJECT" then "finalize"
  else "human_review"

/-- The `status_map` of `finalize_case`. -/
def finalStatusMapGet (decision : String) : Option String :=
  if decision = "approve" ∨ decision = "approved" ∨ decision = "APPROVE" then some "approved"
  else if decision = "reject" ∨ decision = "rejected" ∨ decision = "REJECT" then some "rejected"
  else if decision = "escalate" ∨ decision = "ESCALATE" then some "escalated"
  else none

/-- `finalize_case`. -/
def finalizeCase (st : CaseState) : CaseState :=
  { st with
    status := ((finalStatusMapGet ((orFalsy st.human_decision st.final_decision).getD "pending")).getD st.status)
    final_status := some ((finalStatusMapGet ((orFalsy st.human_decision st.final_decision).getD "pending")).getD st.status)
    audit_trail := st.audit_trail
      ++ [{ step := "workflow_completed"
            final_status := some ((finalStatusMapGet ((orFalsy st.human_decision st.final_decision).getD "pending")).getD st.status) }] }

/-- `ACIPWorkflow.start_case`: drives the graph from the initial state to
completion or to the `interrupt()` suspension inside `human_review_node`
(whose own audit entry is only appended after a resume supplies the human
decision). -/
def startCase (quality_score : ℚ) (extraction : ExtractionOutcome)
    (case_id customer_name document_path : String)
    (customer_db_data : Option CustomerRecord) : CaseState :=
  if routeAfterCompliance (complianceDecisionNode (externalVerificationNode
      (documentInspectionNode quality_score extraction (startNode
        { case_id := case_id, customer_name := customer_name,
          document_path := document_path,
          customer_db_data := customer_db_data })))) = "finalize" then
    finalizeCase (complianceDecisionNode (externalVerificationNode
      (documentInspectionNode quality_score extraction (startNode
        { case_id := case_id, customer_name := customer_name,
          document_path := document_path,
          customer_db_data := customer_db_data }))))
  else
    complianceDecisionNode (externalVerificationNode
      (documentInspectionNode quality_score extraction (startNode
        { case_id := case_id, customer_name := customer_name,
          document_path := document_path,
          customer_db_data := customer_db_data })))

/-! ## Resume path (`ACIPWorkflow.resume_with_human_input` and its only call
site, `resume_workflow_task` in `api/actions.py`)

`resume_with_human_input(self, thread_id, decision, actor, notes=None)`
performs no checkpoint validation of its own: it builds a
`Command(resume=...)` and streams it into the compiled graph, which
`ACIPWorkflow.__init__` compiles with `checkpointer=None` (both
`api/actions.py` and `api/cases.py` construct `ACIPWorkflow()` afresh per
request with no argument). No `AlreadyResumed` or `NotFound` error class
exists anywhere in the repository. Moreover the call site invokes the method
with the keyword argument `case_id`, which is not a parameter of the method,
so Python raises `TypeError` on every resume attempt before any workflow
code runs. The Python keyword-argument binding of that call is embedded
below. -/

/-- The parameter names of `resume_with_human_input` (after `self`). -/
def resumeWithHumanInputParams : List String := ["thread_id", "decision", "actor", "notes"]

/-- The keyword arguments used at the call site in `resume_workflow_task`. -/
def resumeCallSiteKwargs : List String := ["case_id", "decision", "actor", "notes"]

/-- Python keyword-argument binding succeeds only if every supplied keyword
names a declared parameter; otherwise the call raises `TypeError`. -/
def kwargsBindOk (params kwargs : List String) : Bool :=
  kwargs.all (fun k => params.contains k)

/-! ## Spec-side statements

The following definitions transcribe the spec wording of the claims being
checked against the embedded code; they are compared with the embedding and
are deliberately not derived from it. -/

/-- The fixed status precedence stated by the spec: sanctions hit, then
restricted-person hit, then document-validity failure, then more than two
discrepancies (no-match), then one or two discrepancies (partial match),
otherwise verified. -/
def specOverallStatus (sanctionsHit restrictedHit validityFailure : Bool)
    (discrepancyCount : Nat) : String :=
  if sanctionsHit then "FLAGGED"
  else if restrictedHit then "FLAGGED"
  else if validityFailure then "NO_MATCH"
  else if 2 < discrepancyCount then "NO_MATCH"
  else if 1 ≤ discrepancyCount then "PARTIAL_MATCH"
  else "VERIFIED"

/-- The single risk indicator actually recorded: that of the
highest-precedence hit (the `elif` chain appends at most one). -/
def specSingleIndicator (sanctionsHit restrictedHit validityFailure : Bool)
    (discrepancyCount : Nat) : List String :=
  if sanctionsHit then ["SANCTIONS_MATCH"]
  else if restrictedHit then ["PEP_MATCH"]
  else if validityFailure then ["DVS_FAILED"]
  else if 1 ≤ discrepancyCount then ["DATABASE_DISCREPANCY"]
  else []

/-- The score rule stated by the spec: score `2 × #risk − #mitigating`,
LOW when `score ≤ −2`, HIGH when `score > 2`, otherwise MEDIUM. -/
def specScoreClassify (nRisk nMitigating : Nat) : String :=
  if (2 * nRisk : Int) - nMitigating ≤ -2 then "LOW"
  else if 2 < (2 * nRisk : Int) - nMitigating then "HIGH"
  else "MEDIUM"

/-- A raw field value the spec calls missing: `None`, empty, or the literal
strings `"null"` / `"None"`. -/
def isMissingRaw (o : Option String) : Prop :=
  o = none ∨ o = some "" ∨ o = some "null" ∨ o = some "None"

instance (o : Option String) : Decidable (isMissingRaw o) := by
  unfold isMissingRaw
  infer_instance

/-! ## Concrete fixtures used by witnesses, counterexamples and scenarios -/

/-- The spec scenario extraction
`{firstName:"JANE", lastName:"CITIZEN", dob:"1991-05-04", idNumber:"RA0123456"}`
(the `jane` mock record of `document_inspector.py`). -/
def janeExtracted : ExtractedData :=
  { document_type := some "PASSPORT", first_name := some "JANE",
    last_name := some "CITIZEN", dob := some "1991-05-04",
    document_number := some "RA0123456", id_number := some "RA0123456",
    nationality := some "AUSTRALIAN" }

/-- A reference record identical to `janeExtracted` on the compared fields. -/
def janeRecord : CustomerRecord :=
  { customer_id := some "CUST-002", first_name := some "JANE",
    last_name := some "CITIZEN", dob := some "1991-05-04",
    id_number := some "RA0123456" }

/-- The inspection result for the scenario document (constant quality 0.92,
extraction succeeding with the scenario fields). -/
def janeInspection : InspectionResult := inspect assessQualityScore (.ok janeExtracted)

/-- An extraction whose name triggers the sanctions screening. -/
def sanctionedExtracted : ExtractedData :=
  { document_type := some "PASSPORT", first_name := some "SANCTIONED",
    last_name := some "PERSON", dob := some "1990-01-01",
    document_number := some "X123456", id_number := some "X123456" }

/-- An extraction whose name triggers the restricted-person screening but
not the sanctions screening. -/
def pepExtracted : ExtractedData :=
  { document_type := some "PASSPORT", first_name := some "PAULA",
    last_name := some "POLITICIAN", dob := some "1990-01-01",
    document_number := some "P123456", id_number := some "P123456" }

/-- An extraction triggering three hits at once: sanctions, restricted
person, and (through the missing document number) the validity check. -/
def multiHitExtracted : ExtractedData :=
  { first_name := some "SANCTIONED", last_name := some "POLITICIAN" }

/-- An extraction with no document number (validity check fails) whose other
fields match `janeRecord`, so that no hard rule fires and the database match
is fully verified. -/
def noDocNumberExtracted : ExtractedData :=
  { document_type := some "PASSPORT", first_name := some "JANE",
    last_name := some "CITIZEN", dob := some "1991-05-04" }

/-- The verification fed to the risk step in the C7 counterexample. -/
def dvsFailedVerification : VerificationResult := verify noDocNumberExtracted (some janeRecord)

/-- The literal `0.3` (the scenario quality score). -/
def cLowQuality : ℚ := ⟨3, 10, by decide, by decide⟩

/-- A placeholder extraction oracle; the low-quality path never consults it. -/
def extractionUnused : ExtractionOutcome := .err "unused"

/-- The inspection result produced on the low-quality path. -/
def lowQualityInspection (q : ℚ) : InspectionResult :=
  { success := false
    document_type := none
    quality_score := some q
    extracted_data := none
    issues := ["Image quality too low for reliable extraction"]
    requires_resubmission := true
    resubmission_reason := some "The document image is blurry or low resolution. Please upload a clearer photo." }

theorem levRec_nil_right (xs : List Char) : levRec xs [] = xs.length := by
  cases xs <;> simp [levRec]

theorem levRec_comm (xs : List Char) : ∀ ys : List Char, levRec xs ys = levRec ys xs := by
  induction xs with
  | nil => intro ys; cases ys <;> simp [levRec]
  | cons x xs ihx =>
    intro ys
    induction ys with
    | nil => simp [levRec]
    | cons y ys ihy =>
      simp only [levRec]
      rw [ihx (y :: ys), ihy, ihx ys]
      by_cases h : x = y
      · simp only [if_pos h, if_pos h.symm]
        omega
      · have h' : ¬ y = x := fun hyx => h hyx.symm
        simp only [if_neg h, if_neg h']
        omega

theorem levSnoc_comm (xs ys : List Char) : levSnoc xs ys = levSnoc ys xs := by
  simp [levSnoc, levRec_comm]

theorem levSnoc_nil_left (ys : List Char) : levSnoc [] ys = ys.length := by
  simp [levSnoc, levRec]

theorem levSnoc_nil_right (xs : List Char) : levSnoc xs [] = xs.length := by
  simp [levSnoc, levRec_nil_right]

theorem levSnoc_snoc (xs ys : List Char) (x y : Char) :
    levSnoc (xs ++ [x]) (ys ++ [y]) =
      min (levSnoc xs (ys ++ [y]) + 1)
        (min (levSnoc (xs ++ [x]) ys + 1) (levSnoc xs ys + (if x = y then 0 else 1))) := by
  simp [levSnoc, List.reverse_append, levRec]

theorem rowFrom_shape (xs p t : List Char) :
    ∃ rest, rowFrom xs p t = levSnoc xs p :: rest := by
  cases t <;> exact ⟨_, rfl⟩

theorem rowFrom_getLastD (xs : List Char) :
    ∀ (t p : List Char), (rowFrom xs p t).getLastD 0 = levSnoc xs (p ++ t) := by
  intro t
  induction t with
  | nil => intro p; simp [rowFrom]
  | cons c2 cs ih =>
    intro p
    obtain ⟨rest, hrest⟩ := rowFrom_shape xs (p ++ [c2]) cs
    rw [rowFrom, hrest, List.getLastD_cons, List.getLastD_cons]
    have h2 := ih (p ++ [c2])
    rw [hrest, List.getLastD_cons] at h2
    rw [h2]
    simp

theorem rowFrom_nil_left : ∀ (t p : List Char), rowFrom [] p t = List.range' p.length (t.length + 1) := by
  intro t
  induction t with
  | nil => intro p; simp [rowFrom, levSnoc_nil_left, List.range']
  | cons c2 cs ih =>
    intro p
    rw [rowFrom, ih (p ++ [c2]), levSnoc_nil_left]
    simp [List.range']

theorem rowGo_spec (c : Char) (xs : List Char) :
    ∀ (t p : List Char),
      levSnoc (xs ++ [c]) p :: rowGo c t (rowFrom xs p t) (levSnoc (xs ++ [c]) p)
        = rowFrom (xs ++ [c]) p t := by
  intro t
  induction t with
  | nil => intro p; simp [rowGo, rowFrom]
  | cons c2 cs ih =>
    intro p
    obtain ⟨rest, hrest⟩ := rowFrom_shape xs (p ++ [c2]) cs
    rw [rowFrom, hrest, rowGo]
    have hmin :
        min (levSnoc xs (p ++ [c2]) + 1)
            (min (levSnoc (xs ++ [c]) p + 1) (levSnoc xs p + (if c = c2 then 0 else 1)))
          = levSnoc (xs ++ [c]) (p ++ [c2]) := by
      rw [levSnoc_snoc]
    rw [hmin, ← hrest]
    have := ih (p ++ [c2])
    rw [show rowFrom (xs ++ [c]) p (c2 :: cs) = levSnoc (xs ++ [c]) p :: rowFrom (xs ++ [c]) (p ++ [c2]) cs from rfl]
    rw [← this]

theorem levFold_spec (s2 : List Char) :
    ∀ (rest xs : List Char),
      levFold s2 rest xs.length (rowFrom xs [] s2) = rowFrom (xs ++ rest) [] s2 := by
  intro rest
  induction rest with
  | nil => intro xs; simp [levFold]
  | cons c cs ih =>
    intro xs
    rw [levFold]
    have hcur : levSnoc (xs ++ [c]) ([] : List Char) = xs.length + 1 := by
      rw [levSnoc_nil_right]; simp
    have hstep : (xs.length + 1) :: rowGo c s2 (rowFrom xs [] s2) (xs.length + 1)
        = rowFrom (xs ++ [c]) [] s2 := by
      rw [← hcur]
      exact rowGo_spec c xs s2 []
    rw [hstep]
    have h := ih (xs ++ [c])
    rw [List.length_append, List.length_singleton] at h
    rw [h, List.append_assoc]
    rfl

theorem levDistOrdered_eq_levSnoc (s1 s2 : List Char) : levDistOrdered s1 s2 = levSnoc s1 s2 := by
  unfold levDistOrdered
  by_cases h : s2.length = 0
  · rw [if_pos h]
    have h2 : s2 = [] := List.length_eq_zero.mp h
    subst h2
    rw [levSnoc_nil_right]
  · rw [if_neg h]
    have hinit : List.range (s2.length + 1) = rowFrom [] [] s2 := by
      rw [rowFrom_nil_left, List.range_eq_range']
      rfl
    rw [hinit]
    have hfold := levFold_spec s2 s1 []
    simp only [List.length_nil, List.nil_append] at hfold
    rw [hfold, rowFrom_getLastD]
    simp

theorem levDist_eq_levSnoc (s1 s2 : List Char) : levDist s1 s2 = levSnoc s1 s2 := by
  unfold levDist
  by_cases h : s1.length < s2.length
  · rw [if_pos h, levDistOrdered_eq_levSnoc, levSnoc_comm]
  · rw [if_neg h, levDistOrdered_eq_levSnoc]

/-- The implemented Levenshtein distance is symmetric. -/
theorem levDist_comm (s1 s2 : List Char) : levDist s1 s2 = levDist s2 s1 := by
  rw [levDist_eq_levSnoc, levDist_eq_levSnoc, levSnoc_comm]

theorem isNearMatch_comm (a b : String) : isNearMatch a b = isNearMatch b a := by
  unfold isNearMatch
  by_cases h1 : stripSeparators a = stripSeparators b
  · simp [h1]
  · have h1' : ¬ stripSeparators b = stripSeparators a := fun h => h1 h.symm
    rw [if_neg h1, if_neg h1', Bool.or_comm, Bool.and_comm, levDist_comm]

theorem valuesMatch_comm (a b : String) : valuesMatch a b = valuesMatch b a := by
  unfold valuesMatch
  by_cases h : upperTrim a = upperTrim b
  · simp [h]
  · have h' : ¬ upperTrim b = upperTrim a := fun hh => h hh.symm
    simp [h, h', isNearMatch_comm]

theorem c05_eq : c05 = 0.5 := by
  rw [← Rat.num_div_den c05]
  norm_num [show c05.num = 1 from rfl, show c05.den = 2 from rfl]

theorem c07_eq : c07 = 0.7 := by
  rw [← Rat.num_div_den c07]
  norm_num [show c07.num = 7 from rfl, show c07.den = 10 from rfl]

theorem c09_eq : c09 = 0.9 := by
  rw [← Rat.num_div_den c09]
  norm_num [show c09.num = 9 from rfl, show c09.den = 10 from rfl]

theorem c092_eq : c092 = 0.92 := by
  rw [← Rat.num_div_den c092]
  norm_num [show c092.num = 23 from rfl, show c092.den = 25 from rfl]

theorem c098_eq : c098 = 0.98 := by
  rw [← Rat.num_div_den c098]
  norm_num [show c098.num = 49 from rfl, show c098.den = 50 from rfl]

theorem c085_eq : c085 = 0.85 := by
  rw [← Rat.num_div_den c085]
  norm_num [show c085.num = 17 from rfl, show c085.den = 20 from rfl]

theorem c099_eq : c099 = 0.99 := by
  rw [← Rat.num_div_den c099]
  norm_num [show c099.num = 99 from rfl, show c099.den = 100 from rfl]

/-! ## Claim theorems -/

/-- C1: whenever the sanctions screening reports a hit, `assess` returns
decision REJECT with risk classification HIGH, confidence 0.99 and the
account-restriction markers, regardless of every other risk or mitigating
factor — the hard rule short-circuits the score-based classification. -/
theorem c1_sanctions_hit_forces_reject (ir : InspectionResult) (vr : VerificationResult)
    (h : sanctionsHitB vr = true) :
    (assess ir vr).decision = "REJECT" ∧ (assess ir vr).risk_level = "HIGH" ∧
    (assess ir vr).confidence_score = 0.99 ∧
    (assess ir vr).restrictions = ["ACCOUNT_FROZEN", "NO_TRANSACTIONS"] := by
  have hmem : "SANCTIONS HIT" ∈ (assessFactors ir vr).1 := by
    simp [assessFactors, assessExternalEvidence, h]
  have hany : (assessFactors ir vr).1.any isCriticalFactor = true :=
    List.any_eq_true.mpr ⟨"SANCTIONS HIT", hmem, by decide⟩
  have hhigh : assessRiskLevel ir vr = "HIGH" := by
    unfold assessRiskLevel calculateRiskLevel
    rw [hany]
    simp
  refine ⟨?_, ?_, ?_, ?_⟩
  · show (makeDecision (assessRiskLevel ir vr) (assessFactors ir vr).1 vr).decision = "REJECT"
    simp [makeDecision, h, sanctionsAutoRejectRule]
  · show assessRiskLevel ir vr = "HIGH"
    exact hhigh
  · show (makeDecision (assessRiskLevel ir vr) (assessFactors ir vr).1 vr).confidence_score = 0.99
    simp [makeDecision, h, sanctionsAutoRejectRule, c099_eq]
  · show (makeDecision (assessRiskLevel ir vr) (assessFactors ir vr).1 vr).restrictions
      = ["ACCOUNT_FROZEN", "NO_TRANSACTIONS"]
    simp [makeDecision, h, sanctionsAutoRejectRule]

/-- C1 witness: the hard rule at a concrete sanctioned input. -/
theorem c1_sanctions_hit_forces_reject_witness :
    sanctionsHitB (verify sanctionedExtracted none) = true ∧
    ((assess janeInspection (verify sanctionedExtracted none)).decision = "REJECT" ∧
     (assess janeInspection (verify sanctionedExtracted none)).risk_level = "HIGH" ∧
     (assess janeInspection (verify sanctionedExtracted none)).confidence_score = 0.99 ∧
     (assess janeInspection (verify sanctionedExtracted none)).restrictions
       = ["ACCOUNT_FROZEN", "NO_TRANSACTIONS"]) :=
  ⟨by decide,
   c1_sanctions_hit_forces_reject janeInspection (verify sanctionedExtracted none) (by decide)⟩

/-- C2: the only resume call site binds the keyword `case_id` against the
parameter list `(thread_id, decision, actor, notes)` of
`resume_with_human_input`, so Python keyword binding fails and every resume
raises `TypeError`; the `AlreadyResumed` and `NotFound` failures the claim
describes are not implemented. -/
theorem c2_resume_call_binding_fails :
    kwargsBindOk resumeWithHumanInputParams resumeCallSiteKwargs = false := by
  decide

/-- C4: the overall verification status follows the fixed spec precedence
(sanctions hit, then restricted-person hit, then validity failure, then more
than two discrepancies as no-match, then one or two as partial match,
otherwise verified). -/
theorem c4_overall_status_precedence (r : VerificationResult) :
    (determineOverallStatus r).overall_status
      = some (specOverallStatus (sanctionsHitB r) (pepHitB r) (dvsFailedB r)
          (dbDiscrepancyCount r)) := by
  have hdb : dbDiscrepancyB r = decide (1 ≤ dbDiscrepancyCount r) := by
    unfold dbDiscrepancyB dbDiscrepancyCount
    cases r.database_match with
    | none => simp
    | some m => cases hml : m.discrepancies <;> simp [hml]
  unfold determineOverallStatus specOverallStatus
  cases hs : sanctionsHitB r <;> cases hp : pepHitB r <;> cases hv : dvsFailedB r <;>
    simp [hs, hp, hv, hdb] <;>
    by_cases h2 : 2 < dbDiscrepancyCount r <;> by_cases h1 : 1 ≤ dbDiscrepancyCount r <;>
    simp [h1, h2] <;> omega

/-- C5 counterexample: an input hitting the sanctions, restricted-person and
validity checks at once records only `SANCTIONS_MATCH` — the other hits
append nothing, and the names `RESTRICTED_PERSON_MATCH` / `VALIDITY_FAILED`
never appear. -/
theorem c5_multiple_hits_single_indicator :
    sanctionsHitB (verify multiHitExtracted none) = true ∧
    pepHitB (verify multiHitExtracted none) = true ∧
    dvsFailedB (verify multiHitExtracted none) = true ∧
    (verify multiHitExtracted none).risk_indicators = ["SANCTIONS_MATCH"] ∧
    "RESTRICTED_PERSON_MATCH" ∉ (verify multiHitExtracted none).risk_indicators ∧
    "PEP_MATCH" ∉ (verify multiHitExtracted none).risk_indicators ∧
    "VALIDITY_FAILED" ∉ (verify multiHitExtracted none).risk_indicators := by
  decide

/-- C5 amended: the result carries at most one risk indicator, that of the
highest-precedence hit, under the names `SANCTIONS_MATCH`, `PEP_MATCH`,
`DVS_FAILED`, `DATABASE_DISCREPANCY`. -/
theorem c5_single_indicator_of_highest_hit (r : VerificationResult) :
    (determineOverallStatus r).risk_indicators
      = specSingleIndicator (sanctionsHitB r) (pepHitB r) (dvsFailedB r)
          (dbDiscrepancyCount r) := by
  have hdb : dbDiscrepancyB r = decide (1 ≤ dbDiscrepancyCount r) := by
    unfold dbDiscrepancyB dbDiscrepancyCount
    cases r.database_match with
    | none => simp
    | some m => cases hml : m.discrepancies <;> simp [hml]
  unfold determineOverallStatus specSingleIndicator
  cases hs : sanctionsHitB r <;> cases hp : pepHitB r <;> cases hv : dvsFailedB r <;>
    simp [hs, hp, hv, hdb] <;>
    by_cases h2 : 2 < dbDiscrepancyCount r <;> by_cases h1 : 1 ≤ dbDiscrepancyCount r <;>
    simp [h1, h2] <;> omega

/-- C6 counterexample: `"ABC"` and `"ABD"` are at the implementation's own
Levenshtein distance 1 after normalization and are not nickname equivalents,
yet they do not match — the distance tolerance is only applied when both
normalized values are longer than 3 characters. -/
theorem c6_short_values_within_distance_not_matched :
    levDist (stripSeparators (upperTrim "ABC")).toList (stripSeparators (upperTrim "ABD")).toList = 1 ∧
    commonNamesGet (stripSeparators (upperTrim "ABC")) = none ∧
    commonNamesGet (stripSeparators (upperTrim "ABD")) = none ∧
    valuesMatch "ABC" "ABD" = false := by
  decide

/-- C6 amended: the comparison is symmetric; equal normalized values, the
nickname table, and (when both separator-stripped values are longer than 3
characters) Levenshtein distance at most 2 each give a match; and
`match("JON","JOHN") = true`, `match("SMYTH","SMITH") = true`,
`match("JANE","JOHN") = false`. -/
theorem c6_near_match_symmetric_and_tolerant :
    (∀ a b : String, valuesMatch a b = valuesMatch b a) ∧
    (∀ a b : String,
      commonNamesGet (stripSeparators (upperTrim a)) = some (stripSeparators (upperTrim b)) →
      valuesMatch a b = true) ∧
    (∀ a b : String,
      3 < (stripSeparators (upperTrim a)).length →
      3 < (stripSeparators (upperTrim b)).length →
      levDist (stripSeparators (upperTrim a)).toList (stripSeparators (upperTrim b)).toList ≤ 2 →
      valuesMatch a b = true) ∧
    valuesMatch "JON" "JOHN" = true ∧
    valuesMatch "SMYTH" "SMITH" = true ∧
    valuesMatch "JANE" "JOHN" = false := by
  refine ⟨valuesMatch_comm, ?_, ?_, by decide, by decide, by decide⟩
  · intro a b h
    unfold valuesMatch isNearMatch
    simp [h, optEqStr]
  · intro a b h1 h2 h3
    unfold valuesMatch isNearMatch
    simp [h1, h2]
    exact Or.inr (Or.inr (Or.inr h3))

/-- C6 witness: the amended tolerance rules applied at concrete inputs
(a nickname pair and a longer-than-3 pair within distance 2). -/
theorem c6_near_match_witness :
    valuesMatch "BOB" "ROBERT" = true ∧ valuesMatch "SMYTHE" "SMITH" = true :=
  ⟨c6_near_match_symmetric_and_tolerant.2.1 "BOB" "ROBERT" (by decide),
   c6_near_match_symmetric_and_tolerant.2.2.1 "SMYTHE" "SMITH" (by decide) (by decide) (by decide)⟩

/-- C7 counterexample: with no sanctions hit and no restricted-person hit, a
failed validity check alone forces risk HIGH even though the spec score rule
(one risk factor, six mitigating factors, score −4) classifies LOW. -/
theorem c7_critical_keyword_overrides_score :
    sanctionsHitB dvsFailedVerification = false ∧
    pepHitB dvsFailedVerification = false ∧
    (assess janeInspection dvsFailedVerification).risk_factors.length = 1 ∧
    (assess janeInspection dvsFailedVerification).mitigating_factors.length = 6 ∧
    specScoreClassify 1 6 = "LOW" ∧
    (assess janeInspection dvsFailedVerification).risk_level = "HIGH" := by
  decide

/-- C7 amended: when no risk factor contains a critical keyword
(`SANCTIONS`, `PEP status`, `DVS verification failed`), the classification
equals the spec score rule `2 × #risk − #mitigating` with LOW at `≤ −2`,
HIGH above 2, MEDIUM otherwise. -/
theorem c7_score_rule_without_critical_factors (rf mf : List String)
    (h : rf.any isCriticalFactor = false) :
    calculateRiskLevel rf mf = specScoreClassify rf.length mf.length := by
  unfold calculateRiskLevel specScoreClassify
  rw [h]
  simp only [Bool.false_eq_true, if_false]
  split_ifs <;> first | rfl | omega

/-- C7 witness: the score rule at a concrete non-critical input. -/
theorem c7_score_rule_witness :
    List.any ["extra factor"] isCriticalFactor = false ∧
    calculateRiskLevel ["extra factor"] []
      = specScoreClassify (List.length ["extra factor"]) (List.length ([] : List String)) :=
  ⟨by decide, c7_score_rule_without_critical_factors ["extra factor"] [] (by decide)⟩

theorem c07_eq70 : c07 = 0.70 := by
  rw [← Rat.num_div_den c07]
  norm_num [show c07.num = 7 from rfl, show c07.den = 10 from rfl]

/-- C8 counterexample: a restricted-person hit (no sanctions) yields
confidence 0.85 although verification is FLAGGED and risk is HIGH, where the
claim prescribes 0.70 for every non-(VERIFIED ∧ LOW) case. -/
theorem c8_pep_confidence_counterexample :
    sanctionsHitB (verify pepExtracted none) = false ∧
    (assess janeInspection (verify pepExtracted none)).decision = "ESCALATE" ∧
    (assess janeInspection (verify pepExtracted none)).confidence_score = 0.85 ∧
    ¬((verify pepExtracted none).overall_status = some "VERIFIED" ∧
      (assess janeInspection (verify pepExtracted none)).risk_level = "LOW") := by
  refine ⟨by decide, by decide, ?_, by decide⟩
  rw [← c085_eq]
  decide

/-- C8 amended: absent a sanctions hard-reject the decision is always
ESCALATE; the confidence is 0.85 on the restricted-person hard rule, and
otherwise 0.85 exactly when verification is VERIFIED and risk is LOW and
0.70 in every other case; and the identical-record scenario yields database
match VERIFIED with zero discrepancies, overall VERIFIED, decision ESCALATE
with risk LOW. -/
theorem c8_always_escalate_and_scenario :
    (∀ (ir : InspectionResult) (vr : VerificationResult), sanctionsHitB vr = false →
      (assess ir vr).decision = "ESCALATE" ∧
      (assess ir vr).confidence_score =
        (if pepHitB vr = true then (0.85 : ℚ)
         else if vr.overall_status = some "VERIFIED" ∧ (assess ir vr).risk_level = "LOW"
         then 0.85 else 0.70)) ∧
    (verifyAgainstDatabase janeExtracted janeRecord).status = "VERIFIED" ∧
    (verifyAgainstDatabase janeExtracted janeRecord).discrepancies = [] ∧
    (verify janeExtracted (some janeRecord)).overall_status = some "VERIFIED" ∧
    (assess janeInspection (verify janeExtracted (some janeRecord))).decision = "ESCALATE" ∧
    (assess janeInspection (verify janeExtracted (some janeRecord))).risk_level = "LOW" := by
  refine ⟨?_, by decide, by decide, by decide, by decide, by decide⟩
  intro ir vr h
  have hr : (assess ir vr).risk_level = assessRiskLevel ir vr := rfl
  constructor
  · show (makeDecision (assessRiskLevel ir vr) (assessFactors ir vr).1 vr).decision = "ESCALATE"
    unfold makeDecision
    simp only [h, sanctionsAutoRejectRule, pepRequiresEddRule, Bool.false_and,
      Bool.and_true, Bool.false_eq_true, if_false]
    by_cases hp : pepHitB vr = true <;> simp [hp]
  · show (makeDecision (assessRiskLevel ir vr) (assessFactors ir vr).1 vr).confidence_score
      = (if pepHitB vr = true then (0.85 : ℚ)
         else if vr.overall_status = some "VERIFIED" ∧ (assess ir vr).risk_level = "LOW"
         then 0.85 else 0.70)
    rw [hr]
    unfold makeDecision
    simp only [h, sanctionsAutoRejectRule, pepRequiresEddRule, Bool.false_and,
      Bool.and_true, Bool.false_eq_true, if_false]
    by_cases hp : pepHitB vr = true
    · simp [hp, c085_eq]
    · simp only [hp, Bool.false_eq_true, if_false, if_neg]
      by_cases hc : vr.overall_status = some "VERIFIED" ∧ assessRiskLevel ir vr = "LOW"
      · simp [hc, c085_eq]
      · simp [hc, c07_eq70]

/-- C8 witness: the amended rule at the concrete scenario input. -/
theorem c8_always_escalate_witness :
    sanctionsHitB (verify janeExtracted (some janeRecord)) = false ∧
    ((assess janeInspection (verify janeExtracted (some janeRecord))).decision = "ESCALATE" ∧
     (assess janeInspection (verify janeExtracted (some janeRecord))).confidence_score =
       (if pepHitB (verify janeExtracted (some janeRecord)) = true then (0.85 : ℚ)
        else if (verify janeExtracted (some janeRecord)).overall_status = some "VERIFIED" ∧
          (assess janeInspection (verify janeExtracted (some janeRecord))).risk_level = "LOW"
        then 0.85 else 0.70)) :=
  ⟨by decide,
   c8_always_escalate_and_scenario.1 janeInspection (verify janeExtracted (some janeRecord))
     (by decide)⟩

/-- A field-mapping entry whose document-side or database-side raw value is
missing leaves the `(discrepancies, matched_fields)` accumulator untouched. -/
theorem dbFieldStep_skips_missing (e : ExtractedData) (d : CustomerRecord)
    (acc : List Discrepancy × List String) (m : String × String × String)
    (h : isMissingRaw (extractRawValue e m.1) ∨ isMissingRaw (getDbField d m.2.1)) :
    dbFieldStep e d acc m = acc := by
  rcases h with h | h
  · have hext : normExtValue (extractRawValue e m.1) = none := by
      rcases h with h | h | h | h <;> simp [h, normExtValue]
    unfold dbFieldStep
    rw [hext]
  · have hdb : normDbValue (getDbField d m.2.1) = none := by
      rcases h with h | h | h | h <;> simp [h, normDbValue]
    unfold dbFieldStep
    cases hext : normExtValue (extractRawValue e m.1) with
    | none => rfl
    | some v => rw [hdb]

/-- C9: a field whose extracted or reference value is missing (`None`,
empty, `"null"` or `"None"`) is skipped entirely — it is never added to the
discrepancy or matched lists and so never affects the match status. -/
theorem c9_missing_field_skipped (e : ExtractedData) (d : CustomerRecord)
    (acc : List Discrepancy × List String) (m : String × String × String)
    (hm : m ∈ fieldMappings)
    (h : isMissingRaw (extractRawValue e m.1) ∨ isMissingRaw (getDbField d m.2.1)) :
    dbFieldStep e d acc m = acc :=
  dbFieldStep_skips_missing e d acc m h

/-- C9 witness: the first-name mapping with a missing extraction. -/
theorem c9_missing_field_skipped_witness :
    (("first_name", "first_name", "First Name") ∈ fieldMappings) ∧
    (isMissingRaw (extractRawValue ({} : ExtractedData) "first_name") ∨
      isMissingRaw (getDbField ({} : CustomerRecord) "first_name")) ∧
    dbFieldStep ({} : ExtractedData) ({} : CustomerRecord) ([], [])
      ("first_name", "first_name", "First Name") = ([], []) :=
  ⟨by decide, by decide,
   c9_missing_field_skipped ({} : ExtractedData) ({} : CustomerRecord) ([], [])
     ("first_name", "first_name", "First Name") (by decide) (by decide)⟩

/-- C10: when every field comparison is skipped for missing values, the
database match still reports status VERIFIED with empty discrepancies, empty
matched fields and match percentage 0. -/
theorem c10_nothing_compared_reports_verified (e : ExtractedData) (d : CustomerRecord)
    (h : ∀ m ∈ fieldMappings,
      isMissingRaw (extractRawValue e m.1) ∨ isMissingRaw (getDbField d m.2.1)) :
    (verifyAgainstDatabase e d).status = "VERIFIED" ∧
    (verifyAgainstDatabase e d).discrepancies = [] ∧
    (verifyAgainstDatabase e d).matched_fields = [] ∧
    (verifyAgainstDatabase e d).match_percentage = 0 := by
  have h1 := dbFieldStep_skips_missing e d ([], [])
    ("first_name", "first_name", "First Name") (h _ (by decide))
  have h2 := dbFieldStep_skips_missing e d ([], [])
    ("last_name", "last_name", "Last Name") (h _ (by decide))
  have h3 := dbFieldStep_skips_missing e d ([], [])
    ("dob", "dob", "Date of Birth") (h _ (by decide))
  have h4 := dbFieldStep_skips_missing e d ([], [])
    ("document_number", "id_number", "ID Number") (h _ (by decide))
  have h5 := dbFieldStep_skips_missing e d ([], [])
    ("id_number", "id_number", "ID Number") (h _ (by decide))
  have hfold : fieldMappings.foldl (dbFieldStep e d) ([], []) = ([], []) := by
    simp only [fieldMappings, List.foldl_cons, List.foldl_nil, h1, h2, h3, h4, h5]
  refine ⟨?_, ?_, ?_, ?_⟩ <;> simp only [verifyAgainstDatabase] <;> rw [hfold] <;> simp

/-- C10 witness: an empty extraction against an empty reference record. -/
theorem c10_nothing_compared_witness :
    (∀ m ∈ fieldMappings,
      isMissingRaw (extractRawValue ({} : ExtractedData) m.1) ∨
        isMissingRaw (getDbField ({} : CustomerRecord) m.2.1)) ∧
    ((verifyAgainstDatabase ({} : ExtractedData) ({} : CustomerRecord)).status = "VERIFIED" ∧
     (verifyAgainstDatabase ({} : ExtractedData) ({} : CustomerRecord)).discrepancies = [] ∧
     (verifyAgainstDatabase ({} : ExtractedData) ({} : CustomerRecord)).matched_fields = [] ∧
     (verifyAgainstDatabase ({} : ExtractedData) ({} : CustomerRecord)).match_percentage = 0) :=
  ⟨by decide, c10_nothing_compared_reports_verified ({} : ExtractedData) ({} : CustomerRecord) (by decide)⟩

/-- `assess` depends on the inspection result only through the document
evidence factors. -/
theorem assess_congr_doc (ir ir' : InspectionResult) (vr : VerificationResult)
    (h : assessDocumentEvidence ir = assessDocumentEvidence ir') :
    assess ir vr = assess ir' vr := by
  unfold assess assessRiskLevel assessFactors
  rw [h]

/-- Below the 0.5 threshold, `inspect` fails with the resubmission request
before consulting the extraction oracle. -/
theorem inspect_low_quality (q : ℚ) (ex : ExtractionOutcome) (h : q < c05) :
    inspect q ex = lowQualityInspection q := by
  unfold inspect lowQualityInspection
  rw [if_pos h]

/-- C3 counterexample: at quality 0.3 the inspection issue reads
`"Image quality too low for reliable extraction"`, not `"low image
quality"`, and although the verification node is skipped silently the
decision step still runs: a `compliance_decision` audit entry appears. -/
theorem c3_low_quality_issue_and_decision_entry :
    cLowQuality < 0.5 ∧
    (inspect cLowQuality extractionUnused).success = false ∧
    (inspect cLowQuality extractionUnused).issues
      = ["Image quality too low for reliable extraction"] ∧
    "low image quality" ∉ (inspect cLowQuality extractionUnused).issues ∧
    (startCase cLowQuality extractionUnused "case-001" "Jane Citizen"
      "uploads/passport_jane.png" none).status = "awaiting_human" ∧
    (startCase cLowQuality extractionUnused "case-001" "Jane Citizen"
      "uploads/passport_jane.png" none).audit_trail.map AuditEntry.step
      = ["workflow_started", "document_inspection", "compliance_decision"] := by
  refine ⟨?_, by decide, by decide, by decide, by decide, by decide⟩
  rw [← c05_eq]
  decide

/-- C3 amended: for every quality score below 0.5 the inspection fails with
issue `"Image quality too low for reliable extraction"` and a resubmission
flag, the case suspends in `awaiting_human`, and the verification step
appends no audit entry — but the decision step still runs on the skipped
verification and appends a `compliance_decision` audit entry. -/
theorem c3_low_quality_path (q : ℚ) (ex : ExtractionOutcome)
    (cid cname dpath : String) (cdb : Option CustomerRecord)
    (h : q < 0.5) :
    (inspect q ex).success = false ∧
    (inspect q ex).issues = ["Image quality too low for reliable extraction"] ∧
    (inspect q ex).requires_resubmission = true ∧
    (startCase q ex cid cname dpath cdb).status = "awaiting_human" ∧
    (startCase q ex cid cname dpath cdb).audit_trail.map AuditEntry.step
      = ["workflow_started", "document_inspection", "compliance_decision"] := by
  have hq : q < c05 := by rw [c05_eq]; exact h
  have hinsp := inspect_low_quality q ex hq
  have hdoc : assessDocumentEvidence (lowQualityInspection q)
      = assessDocumentEvidence (lowQualityInspection 0) := by
    simp [assessDocumentEvidence, lowQualityInspection]
  have hA : assess (lowQualityInspection q) skippedVerification
      = assess (lowQualityInspection 0) skippedVerification :=
    assess_congr_doc _ _ _ hdoc
  have hdec : (assess (lowQualityInspection 0) skippedVerification).decision = "ESCALATE" := by
    decide
  have hsucc : (lowQualityInspection q).success = false := rfl
  refine ⟨?_, ?_, ?_, ?_, ?_⟩
  · rw [hinsp]
    rfl
  · rw [hinsp]
    rfl
  · rw [hinsp]
    rfl
  · simp only [startCase, routeAfterCompliance, complianceDecisionNode,
      externalVerificationNode, documentInspectionNode, startNode, hinsp]
    simp [hA, hdec, hsucc]
  · simp only [startCase, routeAfterCompliance, complianceDecisionNode,
      externalVerificationNode, documentInspectionNode, startNode, hinsp]
    simp [hA, hdec, hsucc]

/-- C3 witness: the amended path at the concrete scenario quality 0.3. -/
theorem c3_low_quality_path_witness :
    cLowQuality < 0.5 ∧
    ((inspect cLowQuality extractionUnused).success = false ∧
     (inspect cLowQuality extractionUnused).issues
       = ["Image quality too low for reliable extraction"] ∧
     (inspect cLowQuality extractionUnused).requires_resubmission = true ∧
     (startCase cLowQuality extractionUnused "case-001" "Jane Citizen"
       "uploads/passport_jane.png" none).status = "awaiting_human" ∧
     (startCase cLowQuality extractionUnused "case-001" "Jane Citizen"
       "uploads/passport_jane.png" none).audit_trail.map AuditEntry.step
       = ["workflow_started", "document_inspection", "compliance_decision"]) :=
  ⟨c05_eq ▸ (by decide : cLowQuality < c05),
   c3_low_quality_path cLowQuality extractionUnused "case-001" "Jane Citizen"
     "uploads/passport_jane.png" none (c05_eq ▸ (by decide : cLowQuality < c05))⟩
